import Mathlib

/-!
# Verification of the ai-jr-dev quota / usage / retry core

A shallow embedding of the usage store (`mongodb` client), the entitlement
and quota check (`github` client), the cost extraction (`openai` client) and
the two webhook orchestrations (`issues.labeled`, `pull_request_review.submitted`).

Conventions of the embedding:
* Monetary costs are exact rationals (`ℚ`); the decimal literals appearing in
  the source (`0.25`, `0.01`, ...) are all exactly representable.
* Wall-clock timestamps (`new Date()`) are irrelevant to every property
  treated here and are embedded as the constant `0`.
* The MongoDB collections are embedded as Lean lists of documents;
  `updateOne` updates the first matching document, `findOneAndUpdate` with
  `upsert: true, returnDocument: "after"` is embedded accordingly.
* Fallible external calls (the LLM service, the marketplace subscription
  provider, the Cloud Run job) are passed in as explicit outcome values
  (`Except`/`Option`); a thrown exception is an `error`/`none` outcome.
-/

namespace AiJrDev

/-! ## Data model (types from the mongodb client) -/

/-- One billed job execution attributed to a PR (`sessions` array element). -/
structure Session where
  timestamp : Nat
  cost : ℚ
deriving Repr, DecidableEq

/-- `PullRequest` record of the installations collection. -/
structure PullRequest where
  number : Nat
  created_at : Nat
  cost : ℚ
  sessions : List Session
deriving Repr, DecidableEq

/-- An `installations` collection document.  The TS `Installation` type has
fields `installationId`, `renewalDate` and optional `pullRequests`; the
`docCost` field is not declared in the TS type but is materialized dynamically
by the `$inc: { cost: sessionCost }` update in `addSessionToPullRequest`
(MongoDB creates the field at `0 + inc` when absent). -/
structure Installation where
  installationId : Nat
  renewalDate : String
  pullRequests : Option (List PullRequest)
  docCost : ℚ
deriving Repr, DecidableEq

abbrev Store := List Installation

/-- The filter `{ installationId, renewalDate }` used by the store operations. -/
def matchesKey (id : Nat) (rd : String) (d : Installation) : Bool :=
  d.installationId == id && d.renewalDate == rd

/-- `updateOne`: apply `f` to the first document matching `p`, leave the rest. -/
def updateFirst (p : Installation → Bool) (f : Installation → Installation) :
    Store → Store
  | [] => []
  | d :: ds => if p d then f d :: ds else d :: updateFirst p f ds

/-! ## Usage store operations

The current revision of the mongodb client (the one whose four-argument
signatures the webhook handlers call, and which also defines the promotion
collection operations). -/

/-- `getInstallation` (get-or-create): `findOneAndUpdate` on
`{ installationId, renewalDate }` with `$set: { installationId, renewalDate }`,
`upsert: true`, `returnDocument: "after"`.  The `$set` does not touch
`pullRequests`; a freshly inserted document has no `pullRequests` field. -/
def getInstallation (store : Store) (id : Nat) (rd : String) :
    Installation × Store :=
  match store.find? (matchesKey id rd) with
  | some d =>
      let d' : Installation := { d with installationId := id, renewalDate := rd }
      (d', updateFirst (matchesKey id rd)
        (fun e => { e with installationId := id, renewalDate := rd }) store)
  | none =>
      let d : Installation :=
        { installationId := id, renewalDate := rd, pullRequests := none, docCost := 0 }
      (d, store ++ [d])

/-- `addPullRequestToUsage(installationId, renewalDate, prNumber, initialCost)`:
get-or-create the cycle document, build a new PR record carrying one initial
session of the same cost, push it onto the in-memory array, and `$set` the
whole `pullRequests` array back. -/
def addPullRequestToUsage (store : Store) (id : Nat) (rd : String)
    (prNumber : Nat) (initialCost : ℚ) : Store :=
  let gi := getInstallation store id rd
  let newPr : PullRequest :=
    { number := prNumber, created_at := 0, cost := initialCost,
      sessions := [{ timestamp := 0, cost := initialCost }] }
  let prs := gi.1.pullRequests.getD [] ++ [newPr]
  updateFirst (matchesKey id rd) (fun d => { d with pullRequests := some prs }) gi.2

/-- Mutate the first PR with the given number in the array (the TS code
mutates the object returned by `Array.prototype.find`). -/
def modifyFirstPR (n : Nat) (f : PullRequest → PullRequest) :
    List PullRequest → List PullRequest
  | [] => []
  | pr :: prs =>
      if pr.number == n then f pr :: prs else pr :: modifyFirstPR n f prs

/-- `addSessionToPullRequest(installationId, renewalDate, prNumber, sessionCost)`:
get-or-create the cycle document; if no PR with `prNumber` exists, push a new
PR record with `cost: sessionCost, sessions: []`; push the new session onto
the (found or created) PR's `sessions`; then `updateOne` with
`$set: { pullRequests }` and `$inc: { cost: sessionCost }` — note the `$inc`
targets a document-level `cost` field, not the PR's `cost`. -/
def addSessionToPullRequest (store : Store) (id : Nat) (rd : String)
    (prNumber : Nat) (sessionCost : ℚ) : Store :=
  let gi := getInstallation store id rd
  let prs0 := gi.1.pullRequests.getD []
  let session : Session := { timestamp := 0, cost := sessionCost }
  let prs :=
    match prs0.find? (fun pr => pr.number == prNumber) with
    | some _ => modifyFirstPR prNumber
        (fun pr => { pr with sessions := pr.sessions ++ [session] }) prs0
    | none => prs0 ++
        [{ number := prNumber, created_at := 0, cost := sessionCost,
           sessions := [session] }]
  updateFirst (matchesKey id rd)
    (fun d => { d with pullRequests := some prs, docCost := d.docCost + sessionCost })
    gi.2

/-- Superseded revision of `getInstallation` found in the mongodb client file:
its `$set` additionally contains `pullRequests: []`, so every call rewrites
the array.  Kept for comparison with the current revision above. -/
def getInstallationResetRev (store : Store) (id : Nat) (rd : String) :
    Installation × Store :=
  match store.find? (matchesKey id rd) with
  | some d =>
      let d' : Installation :=
        { d with installationId := id, renewalDate := rd, pullRequests := some [] }
      (d', updateFirst (matchesKey id rd)
        (fun e => { e with installationId := id, renewalDate := rd,
                           pullRequests := some [] }) store)
  | none =>
      let d : Installation :=
        { installationId := id, renewalDate := rd, pullRequests := some [], docCost := 0 }
      (d, store ++ [d])

/-! ## Promotion cohort collection -/

/-- A `promotionUsers` collection document. -/
structure PromotionUser where
  ownerLogin : String
  addedAt : Nat
deriving Repr, DecidableEq

abbrev PromotionStore := List PromotionUser

/-- `addPromotionUser(ownerLogin)`: `findOneAndUpdate` on `{ ownerLogin }` with
`$setOnInsert: { ownerLogin, addedAt }` and `upsert: true`.  On a match the
`$setOnInsert` does nothing; otherwise a single document is inserted. -/
def addPromotionUser (store : PromotionStore) (login : String) : PromotionStore :=
  match store.find? (fun u => u.ownerLogin == login) with
  | some _ => store
  | none => store ++ [{ ownerLogin := login, addedAt := 0 }]

/-- `getPromotionCount()`: `countDocuments` on the promotion collection. -/
def getPromotionCount (store : PromotionStore) : Nat :=
  store.length

/-- Number of stored records for a given login. -/
def countLogin (store : PromotionStore) (login : String) : Nat :=
  (store.filter (fun u => u.ownerLogin == login)).length

/-! ## Entitlement: subscription lookup and quota check (github client) -/

/-- An `enterpriseAccounts` collection document. -/
structure EnterpriseClient where
  name : String
  montlhyLimit : Nat
deriving Repr, DecidableEq

/-- The `Subscription` interface of the github client. -/
structure Subscription where
  monthlyPrLimit : Nat
  renewalDate : String
deriving Repr, DecidableEq

/-- `getSubscriptionDetails`: queries the marketplace subscription provider.
The provider outcome is passed in explicitly: `.ok (some s)` is an active plan
already mapped through the `PRICE_LIMITS` tier table, `.ok none` is "no
plan / missing billing date", and `.error` is a thrown provider call.  The
function's `catch` turns a thrown call into `null`. -/
def getSubscriptionDetails (provider : Except Unit (Option Subscription)) :
    Option Subscription :=
  match provider with
  | .ok r => r
  | .error _ => none

/-- The quota consumption read by `checkQuotaAndNotify`:
`installation?.pullRequests?.reduce((tot, pr) => tot + Math.ceil(pr.cost / 0.25), 0) || 0`. -/
def prUnits (prs : List PullRequest) : Int :=
  prs.foldl (fun tot pr => tot + ⌈pr.cost / (1/4 : ℚ)⌉) 0

/-- `checkQuotaAndNotify(octokit, payload, installationId, ownerLogin)`.
Environment inputs: the enterprise lookup result and the subscription
provider outcome.  Returns the installation usage document (processing
allowed) or `none` (processing denied: either the subscription-not-found
notice or the quota-exceeded notice was posted and the label removed),
together with the updated store. -/
def checkQuotaAndNotify (enterprise : Option EnterpriseClient)
    (provider : Except Unit (Option Subscription))
    (store : Store) (installationId : Nat) : Option Installation × Store :=
  match enterprise with
  | some _ =>
      -- Enterprise clients bypass quota
      let gi := getInstallation store installationId "2100-01-01"
      (some gi.1, gi.2)
  | none =>
      match getSubscriptionDetails provider with
      | none =>
          -- "Subscription Not Found" comment, label removal, return null
          (none, store)
      | some subscription =>
          let gi := getInstallation store installationId subscription.renewalDate
          let prCount := prUnits (gi.1.pullRequests.getD [])
          if prCount ≥ subscription.monthlyPrLimit then
            -- createQuotaExceededComment, return null
            (none, gi.2)
          else
            (some gi.1, gi.2)

/-! ## Cost extraction (openai client)

`extractSessionCost` first runs the marker regex
`/Cost: \$\d+\.\d+ message, \$(\d+(?:\.\d+)?) session(?!session)/g`
with a single `exec` call, which yields the first match of the text; on no
match it falls back to one LLM call whose outcome is passed in explicitly. -/

/-- Value of a digit list as a natural number (most significant first). -/
def digitsVal (ds : List Char) : Nat :=
  ds.foldl (fun a c => 10 * a + (c.toNat - '0'.toNat)) 0

/-- The rational value of `intDigits "." fracDigits` (`fracDigits` may be empty). -/
def decimalVal (intDigits fracDigits : List Char) : ℚ :=
  (digitsVal intDigits : ℚ) + (digitsVal fracDigits : ℚ) / (10 ^ fracDigits.length : ℚ)

/-- Strip an expected literal from the head of the character list. -/
def stripLit : List Char → List Char → Option (List Char)
  | [], s => some s
  | _ :: _, [] => none
  | l :: ls, c :: cs => if c == l then stripLit ls cs else none

/-- Take a nonempty run of decimal digits from the head. -/
def takeDigits1 (s : List Char) : Option (List Char × List Char) :=
  let ds := s.takeWhile Char.isDigit
  if ds.isEmpty then none else some (ds, s.drop ds.length)

/-- Try to match the cost-marker regex at the head of `s`, returning the
captured session cost `(\d+(?:\.\d+)?)`.  The trailing `(?!session)` negative
lookahead is checked against the remaining text. -/
def matchMarkerAt (s : List Char) : Option ℚ := do
  let s ← stripLit "Cost: $".data s
  let (_, s) ← takeDigits1 s
  let s ← stripLit ".".data s
  let (_, s) ← takeDigits1 s
  let s ← stripLit " message, $".data s
  let (ci, s) ← takeDigits1 s
  let (cf, s) ←
    match s with
    | '.' :: rest =>
        match takeDigits1 rest with
        | some (ds, rest') => some (ds, rest')
        | none => some (([] : List Char), s)
    | _ => some (([] : List Char), s)
  let s ← stripLit " session".data s
  match stripLit "session".data s with
  | some _ => none
  | none => some (decimalVal ci cf)

/-- First match of the marker regex in the text (what a single
`RegExp.exec` call on a fresh `g`-regex returns). -/
def firstMarkerCost : List Char → Option ℚ
  | [] => none
  | c :: rest =>
      match matchMarkerAt (c :: rest) with
      | some v => some v
      | none => firstMarkerCost rest

/-- JS whitespace test for the characters relevant to `String.prototype.trim`. -/
def isJsWs (c : Char) : Bool :=
  c == ' ' || c == '\t' || c == '\n' || c == '\r'

/-- `String.prototype.trim`. -/
def trimChars (s : List Char) : List Char :=
  ((s.dropWhile isJsWs).reverse.dropWhile isJsWs).reverse

/-- JS `parseFloat`, restricted to an optional sign followed by decimal
digits with an optional fraction part (exponent forms and `Infinity` are not
modelled; every value the cost-extraction prompt asks for is of this shape).
Returns `none` for `NaN`. -/
def parseFloat (s : List Char) : Option ℚ :=
  let s := s.dropWhile isJsWs
  let (neg, s) :=
    match s with
    | '-' :: rest => (true, rest)
    | '+' :: rest => (false, rest)
    | _ => (false, s)
  let intDs := s.takeWhile Char.isDigit
  let s' := s.drop intDs.length
  let fracDs :=
    match s' with
    | '.' :: rest => rest.takeWhile Char.isDigit
    | _ => []
  if intDs.isEmpty && fracDs.isEmpty then none
  else
    let v := decimalVal intDs fracDs
    some (if neg then -v else v)

/-- `extractSessionCost(jobOutput)`.  `llm` is the outcome of the fallback
LLM call: `.error` if the API call throws, `.ok none` if the completion has
no content, `.ok (some text)` otherwise.  The whole body is wrapped in
`try/catch` returning `0`, so the embedding is a total function. -/
def extractSessionCost (jobOutput : String) (llm : Except Unit (Option String)) : ℚ :=
  match firstMarkerCost jobOutput.data with
  | some v => v
  | none =>
      match llm with
      | .error _ => 0
      | .ok none => 0
      | .ok (some content) =>
          let t := trimChars content.data
          if t.isEmpty then 0
          else
            match parseFloat t with
            | none => 0
            | some v => v

/-! ## Webhook orchestration flows

The two handlers are embedded as deterministic functions of an environment
describing the outcomes of the external calls they make.  GitHub API reads
(branch SHA fetches, comments, label operations) are totalized oracles; the
Cloud Run job calls are fallible (`none` = the call threw).  The results we
track are the number of `runCloudRunJob` invocations, whether the
`handleIssueError` handler ran, and the terminal outcome. -/

/-- Environment of one `issues.labeled` delivery. -/
structure IssueEnv where
  /-- `payload.installation` present and `payload.label?.name` present. -/
  payloadComplete : Bool
  /-- `WATCHED_LABELS.includes(payload.label.name)`. -/
  labelWatched : Bool
  /-- Enterprise lookup result inside `checkQuotaAndNotify`. -/
  enterprise : Option EnterpriseClient
  /-- Subscription provider outcome inside `checkQuotaAndNotify`. -/
  provider : Except Unit (Option Subscription)
  /-- Usage store at delivery time. -/
  store : Store
  installationId : Nat
  /-- Branch SHA observed by the `getBranch` call before the first job. -/
  shaStart : Nat
  /-- Branch SHA observed after the first job. -/
  shaMid : Nat
  /-- Branch SHA observed after the conditional second job. -/
  shaEnd : Nat
  /-- Log text of the first `runCloudRunJob` call; `none` if it threw. -/
  job1 : Option String
  /-- Log text of the second `runCloudRunJob` call; `none` if it threw. -/
  job2 : Option String
  /-- LLM outcomes for the two `extractSessionCost` fallbacks. -/
  llm1 : Except Unit (Option String)
  llm2 : Except Unit (Option String)
  /-- PR number returned by `pulls.create`. -/
  prNumber : Nat

/-- Observable outcome of one `issues.labeled` delivery. -/
structure IssueResult where
  /-- How many times `runCloudRunJob` was invoked. -/
  jobCalls : Nat
  /-- Whether the centralized `handleIssueError` handler ran. -/
  errorHandled : Bool
  /-- Whether a pull request was created. -/
  prCreated : Bool
  /-- Usage store after the delivery. -/
  store : Store
deriving Repr, DecidableEq

/-- `handleIssuesLabeled`: guard on payload and watched label; quota check;
first job; if the branch SHA did not move, derive file hints and run the job
a second time; if the SHA still did not move, throw (caught by the
surrounding `try`, which invokes `handleIssueError`); otherwise create the PR
and record its usage. -/
def handleIssuesLabeled (env : IssueEnv) : IssueResult :=
  if !(env.payloadComplete && env.labelWatched) then
    { jobCalls := 0, errorHandled := false, prCreated := false, store := env.store }
  else
    match checkQuotaAndNotify env.enterprise env.provider env.store env.installationId with
    | (none, store') =>
        -- quota exceeded or no subscription: return inside the try block
        { jobCalls := 0, errorHandled := false, prCreated := false, store := store' }
    | (some installation, store') =>
        match env.job1 with
        | none =>
            -- runCloudRunJob threw: caught, handleIssueError
            { jobCalls := 1, errorHandled := true, prCreated := false, store := store' }
        | some log1 =>
            let cost1 := extractSessionCost log1 env.llm1
            if env.shaStart == env.shaMid then
              match env.job2 with
              | none =>
                  { jobCalls := 2, errorHandled := true, prCreated := false,
                    store := store' }
              | some log2 =>
                  let cost := cost1 + extractSessionCost log2 env.llm2
                  if env.shaStart == env.shaEnd then
                    -- `throw new Error("… still has no changes …")` → caught
                    { jobCalls := 2, errorHandled := true, prCreated := false,
                      store := store' }
                  else
                    { jobCalls := 2, errorHandled := false, prCreated := true,
                      store := addPullRequestToUsage store' env.installationId
                        installation.renewalDate env.prNumber cost }
            else
              if env.shaStart == env.shaEnd then
                { jobCalls := 1, errorHandled := true, prCreated := false,
                  store := store' }
              else
                { jobCalls := 1, errorHandled := false, prCreated := true,
                  store := addPullRequestToUsage store' env.installationId
                    installation.renewalDate env.prNumber cost1 }

/-- Environment of one `pull_request_review.submitted` delivery. -/
structure ReviewEnv where
  /-- `payload.installation` present and `review.state === "changes_requested"`. -/
  payloadComplete : Bool
  /-- `pull_request.user.id === APP_USER_ID || labels.some(watched)`. -/
  prIsOurs : Bool
  /-- `generateReviewPrompt` result (`none` = no actionable feedback). -/
  prompt : Option String
  shaStart : Nat
  shaMid : Nat
  shaEnd : Nat
  job1 : Option String
  job2 : Option String

/-- Observable outcome of one review delivery (only what the claims need). -/
structure ReviewResult where
  jobCalls : Nat
  /-- Whether the "could not determine changes" notice was posted. -/
  noChangeNotice : Bool
deriving Repr, DecidableEq

/-- `handlePullRequestReviewSubmitted`: guards; prompt generation; first job;
if the branch SHA did not move, extend the file hints and run a second job;
if it still did not move, post the no-changes notice; in every non-throwing
path record the session usage and reset the review request. -/
def handlePullRequestReviewSubmitted (env : ReviewEnv) : ReviewResult :=
  if !env.payloadComplete then { jobCalls := 0, noChangeNotice := false }
  else if !env.prIsOurs then { jobCalls := 0, noChangeNotice := false }
  else
    match env.prompt with
    | none => { jobCalls := 0, noChangeNotice := false }
    | some _ =>
        match env.job1 with
        | none =>
            -- runCloudRunJob threw: caught by the handler's try/catch (logged only)
            { jobCalls := 1, noChangeNotice := false }
        | some _ =>
            if env.shaStart == env.shaMid then
              match env.job2 with
              | none => { jobCalls := 2, noChangeNotice := false }
              | some _ =>
                  if env.shaStart == env.shaEnd then
                    { jobCalls := 2, noChangeNotice := true }
                  else
                    { jobCalls := 2, noChangeNotice := false }
            else
              { jobCalls := 1, noChangeNotice := false }

/-! ## Derived observers and concrete instances used by the theorems -/

/-- The `PullRequestUsage` entry numbered `n` of the cycle document keyed
`(id, rd)`, if any. -/
def findPR (store : Store) (id : Nat) (rd : String) (n : Nat) : Option PullRequest :=
  match store.find? (matchesKey id rd) with
  | some d => (d.pullRequests.getD []).find? (fun pr => pr.number == n)
  | none => none

/-- A sequential sequence of `addPullRequestToUsage` calls against one cycle. -/
def appendSeq (store : Store) (id : Nat) (rd : String) (prs : List (Nat × ℚ)) : Store :=
  prs.foldl (fun s pr => addPullRequestToUsage s id rd pr.1 pr.2) store

/-- Five PRs recorded in one cycle, each with extracted cost `0`. -/
def zeroCostStore5 : Store :=
  appendSeq [] 7 "2025-06-01" [(1, 0), (2, 0), (3, 0), (4, 0), (5, 0)]

/-- The spec's two-marker log: an early progress line followed by the final
cumulative line. -/
def dualMarkerLog : String :=
  "Cost: $0.01 message, $0.02 session. ...more output... Cost: $0.03 message, $0.07 session."

/-- An `issues.labeled` delivery during a subscription-provider outage: the
enterprise lookup finds nothing and the provider call throws.  The job oracle
would succeed and move the branch, but nothing should run. -/
def providerOutageEnv : IssueEnv :=
  { payloadComplete := true, labelWatched := true, enterprise := none,
    provider := .error (), store := [], installationId := 7,
    shaStart := 0, shaMid := 1, shaEnd := 1,
    job1 := some "log", job2 := some "log", llm1 := .error (), llm2 := .error (),
    prNumber := 1 }

/-- An `issues.labeled` delivery whose first job completes but leaves the
branch SHA unchanged; the second job also leaves it unchanged. -/
def issueRetryEnv : IssueEnv :=
  { payloadComplete := true, labelWatched := true, enterprise := none,
    provider := .ok (some { monthlyPrLimit := 5, renewalDate := "2025-06-01" }),
    store := [], installationId := 7,
    shaStart := 0, shaMid := 0, shaEnd := 0,
    job1 := some "first log", job2 := some "second log",
    llm1 := .error (), llm2 := .error (), prNumber := 1 }

/-- A review delivery whose first job completes but leaves the SHA unchanged. -/
def reviewRetryEnv : ReviewEnv :=
  { payloadComplete := true, prIsOurs := true, prompt := some "fix the test",
    shaStart := 0, shaMid := 0, shaEnd := 0,
    job1 := some "first log", job2 := none }

/-- An `issues.labeled` delivery whose first job throws. -/
def issueInfraFailEnv : IssueEnv :=
  { payloadComplete := true, labelWatched := true, enterprise := none,
    provider := .ok (some { monthlyPrLimit := 5, renewalDate := "2025-06-01" }),
    store := [], installationId := 7,
    shaStart := 0, shaMid := 5, shaEnd := 5,
    job1 := none, job2 := some "never reached",
    llm1 := .error (), llm2 := .error (), prNumber := 1 }

/-! ## Helper lemmas -/

/-- A document matching the key filter has exactly the filter's fields. -/
theorem matchesKey_fields {id : Nat} {rd : String} {d : Installation}
    (h : matchesKey id rd d = true) : d.installationId = id ∧ d.renewalDate = rd := by
  simpa [matchesKey] using h

/-- Re-`$set`ting the key fields of a matching document does not change it. -/
theorem set_key_self {id : Nat} {rd : String} {d : Installation}
    (h : matchesKey id rd d = true) :
    ({ d with installationId := id, renewalDate := rd } : Installation) = d := by
  obtain ⟨h1, h2⟩ := matchesKey_fields h
  cases d
  simp_all

theorem matchesKey_self (id : Nat) (rd : String) (pr : Option (List PullRequest)) (q : ℚ) :
    matchesKey id rd ⟨id, rd, pr, q⟩ = true := by
  simp [matchesKey]

/-- Updating only the `pullRequests` and `cost` fields of a matching document
keeps it matching the key filter. -/
theorem matchesKey_update {id : Nat} {rd : String} {d : Installation}
    (h : matchesKey id rd d = true) (pr : Option (List PullRequest)) (q : ℚ) :
    matchesKey id rd ⟨d.installationId, d.renewalDate, pr, q⟩ = true := by
  simpa [matchesKey] using matchesKey_fields h

/-- `updateOne` with an update acting as the identity on matches is a no-op. -/
theorem updateFirst_congr {p : Installation → Bool} {f : Installation → Installation}
    (h : ∀ x, p x = true → f x = x) : ∀ l : Store, updateFirst p f l = l := by
  intro l
  induction l with
  | nil => rfl
  | cons a l ih =>
      unfold updateFirst
      cases hpa : p a with
      | true => simp [h a hpa]
      | false => simp [ih]

theorem find?_append_none {α : Type _} {p : α → Bool} {l : List α}
    (h : l.find? p = none) (l' : List α) : (l ++ l').find? p = l'.find? p := by
  induction l with
  | nil => simp
  | cons a l ih =>
      cases hpa : p a with
      | true => rw [List.find?_cons_of_pos _ hpa] at h; cases h
      | false =>
          rw [List.find?_cons_of_neg _ (by simp [hpa])] at h
          rw [List.cons_append, List.find?_cons_of_neg _ (by simp [hpa])]
          exact ih h

/-- `updateOne` on a store whose old part has no match updates the appended
matching document. -/
theorem updateFirst_append {p : Installation → Bool} {f : Installation → Installation}
    {l : Store} (h : l.find? p = none) {d : Installation} (hd : p d = true) :
    updateFirst p f (l ++ [d]) = l ++ [f d] := by
  induction l with
  | nil => simp [updateFirst, hd]
  | cons a l ih =>
      cases hpa : p a with
      | true => rw [List.find?_cons_of_pos _ hpa] at h; cases h
      | false =>
          rw [List.find?_cons_of_neg _ (by simp [hpa])] at h
          simp only [List.cons_append, updateFirst, hpa]
          simp [ih h]

/-- After `updateOne`, the first match of the same filter is the updated
document (provided the update preserves the filter). -/
theorem find?_updateFirst {p : Installation → Bool} {f : Installation → Installation}
    {l : Store} {d : Installation} (h : l.find? p = some d) (hf : p (f d) = true) :
    (updateFirst p f l).find? p = some (f d) := by
  induction l with
  | nil => cases h
  | cons a l ih =>
      cases hpa : p a with
      | true =>
          rw [List.find?_cons_of_pos _ hpa] at h
          injection h with h
          subst h
          unfold updateFirst
          simp only [hpa, if_true]
          exact List.find?_cons_of_pos _ hf
      | false =>
          rw [List.find?_cons_of_neg _ (by simp [hpa])] at h
          unfold updateFirst
          simp only [hpa]
          simp only [Bool.false_eq_true, if_false]
          rw [List.find?_cons_of_neg _ (by simp [hpa])]
          exact ih h

/-- `getInstallation` on a store that already holds the cycle document
returns that document and leaves the store unchanged. -/
theorem getInstallation_found {store : Store} {id : Nat} {rd : String} {d : Installation}
    (h : store.find? (matchesKey id rd) = some d) :
    getInstallation store id rd = (d, store) := by
  have hk : matchesKey id rd d = true := List.find?_some h
  unfold getInstallation
  rw [h]
  simp only [set_key_self hk]
  rw [updateFirst_congr (fun x hx => set_key_self hx)]

/-- `getInstallation` on a store without the cycle document inserts a fresh
one (with no `pullRequests` field). -/
theorem getInstallation_not_found {store : Store} {id : Nat} {rd : String}
    (h : store.find? (matchesKey id rd) = none) :
    getInstallation store id rd =
      (⟨id, rd, none, 0⟩, store ++ [⟨id, rd, none, 0⟩]) := by
  unfold getInstallation
  rw [h]

/-- One PR with cost in `(0, 0.25]` contributes exactly one quota unit. -/
theorem ceil_unit {c : ℚ} (h0 : 0 < c) (h1 : c ≤ 1/4) : ⌈c / (1/4 : ℚ)⌉ = 1 := by
  have hc : c / (1/4 : ℚ) = 4 * c := by ring
  rw [hc, Int.ceil_eq_iff]
  push_cast
  constructor
  · linarith
  · linarith

/-- `checkQuotaAndNotify` for a non-enterprise account with an active
subscription, on a store that already holds the cycle document: the result is
decided by comparing the cost units of the recorded PRs with the limit. -/
theorem checkQuotaAndNotify_subscription {sub : Subscription} {store : Store}
    {id : Nat} {d : Installation}
    (h : store.find? (matchesKey id sub.renewalDate) = some d) :
    checkQuotaAndNotify none (.ok (some sub)) store id =
      if prUnits (d.pullRequests.getD []) ≥ (sub.monthlyPrLimit : ℤ) then (none, store)
      else (some d, store) := by
  simp only [checkQuotaAndNotify, getSubscriptionDetails, getInstallation_found h]

/-! ## C3: get-or-create is non-destructive for an existing cycle record -/

/-- C3.  For every store already holding the cycle document `d` for
`(installationId, cycleKey)`, `getInstallation` returns exactly `d` and
leaves the store unchanged, and calling it a second time does the same: in
particular the `pullRequests` already recorded are never reset or emptied. -/
theorem getInstallation_preserves_pullRequests (store : Store) (id : Nat) (rd : String)
    (d : Installation) (h : store.find? (matchesKey id rd) = some d) :
    getInstallation store id rd = (d, store) ∧
    getInstallation (getInstallation store id rd).2 id rd = (d, store) ∧
    (getInstallation (getInstallation store id rd).2 id rd).1.pullRequests =
      d.pullRequests := by
  have h1 := getInstallation_found h
  refine ⟨h1, ?_, ?_⟩ <;> rw [h1, getInstallation_found h]

/-- Witness for C3: a cycle document with one recorded PR survives two further
`getInstallation` calls intact. -/
theorem getInstallation_preserves_pullRequests_witness :
    getInstallation [⟨7, "2025-06-01",
        some [⟨5, 0, 1/10, [⟨0, 1/10⟩]⟩], 0⟩] 7 "2025-06-01" =
      (⟨7, "2025-06-01", some [⟨5, 0, 1/10, [⟨0, 1/10⟩]⟩], 0⟩,
        [⟨7, "2025-06-01", some [⟨5, 0, 1/10, [⟨0, 1/10⟩]⟩], 0⟩]) ∧
    getInstallation (getInstallation [⟨7, "2025-06-01",
        some [⟨5, 0, 1/10, [⟨0, 1/10⟩]⟩], 0⟩] 7 "2025-06-01").2 7 "2025-06-01" =
      (⟨7, "2025-06-01", some [⟨5, 0, 1/10, [⟨0, 1/10⟩]⟩], 0⟩,
        [⟨7, "2025-06-01", some [⟨5, 0, 1/10, [⟨0, 1/10⟩]⟩], 0⟩]) ∧
    (getInstallation (getInstallation [⟨7, "2025-06-01",
        some [⟨5, 0, 1/10, [⟨0, 1/10⟩]⟩], 0⟩] 7 "2025-06-01").2 7 "2025-06-01").1.pullRequests =
      some [⟨5, 0, 1/10, [⟨0, 1/10⟩]⟩] :=
  getInstallation_preserves_pullRequests _ 7 "2025-06-01" _ rfl

/-- The superseded revision of `getInstallation` (its `$set` contains
`pullRequests: []`) wipes the recorded PRs of an existing cycle document.
Not part of any claim; documents why the current revision matters. -/
theorem getInstallationResetRev_wipes :
    (getInstallationResetRev [⟨7, "2025-06-01",
        some [⟨5, 0, 1/10, [⟨0, 1/10⟩]⟩], 0⟩] 7 "2025-06-01").1.pullRequests =
      some [] := rfl

/-! ## C4: per-PR cost invariant (divergence) -/

/-- C4.  Failing run of the per-PR cost invariant: record PR `11` with
initial cost `0.1` (one initial session), then append one session of cost
`0.2` to it.  The session is appended (two sessions, summing to `0.3`) but
the PR's `cost` field stays `0.1`: `addSessionToPullRequest` `$inc`s a
document-level `cost` field instead of the PR's own `cost`, so
`cost = sum(sessions[].cost)` is violated after the very first
`appendSession`. -/
theorem addSession_cost_divergence :
    (findPR (addSessionToPullRequest (addPullRequestToUsage [] 7 "2025-01-01" 11 (1/10))
        7 "2025-01-01" 11 (2/10)) 7 "2025-01-01" 11).map PullRequest.cost =
      some (1/10) ∧
    (findPR (addSessionToPullRequest (addPullRequestToUsage [] 7 "2025-01-01" 11 (1/10))
        7 "2025-01-01" 11 (2/10)) 7 "2025-01-01" 11).map
        (fun pr => (pr.sessions.map Session.cost).sum) =
      some (3/10) ∧
    (findPR (addSessionToPullRequest (addPullRequestToUsage [] 7 "2025-01-01" 11 (1/10))
        7 "2025-01-01" 11 (2/10)) 7 "2025-01-01" 11).map
        (fun pr => pr.sessions.length) =
      some 2 ∧
    (1/10 : ℚ) ≠ 3/10 := by
  refine ⟨rfl, ?_, rfl, by norm_num⟩
  show some ((1/10 : ℚ) + (2/10 + 0)) = some (3/10)
  norm_num

/-! ## C10: appending a session to an absent PR creates it -/

/-- C10.  If the cycle record for `(id, rd)` has no PR entry numbered `n`
(or does not exist at all), `addSessionToPullRequest` completes and creates a
PR entry numbered `n` carrying the session cost, with the session appended. -/
theorem addSession_creates_missing_pr (store : Store) (id : Nat) (rd : String)
    (n : Nat) (c : ℚ) (h : findPR store id rd n = none) :
    findPR (addSessionToPullRequest store id rd n c) id rd n =
      some { number := n, created_at := 0, cost := c,
             sessions := [{ timestamp := 0, cost := c }] } := by
  unfold findPR at h
  unfold addSessionToPullRequest findPR
  cases hd : store.find? (matchesKey id rd) with
  | none =>
      simp only [getInstallation_not_found hd, Option.getD_none, List.find?_nil,
        List.nil_append]
      rw [updateFirst_append hd (matchesKey_self id rd none 0)]
      rw [find?_append_none hd]
      rw [List.find?_cons_of_pos _ (matchesKey_self id rd _ _)]
      simp
  | some d =>
      simp only [hd] at h
      simp only [getInstallation_found hd, h]
      rw [find?_updateFirst hd (matchesKey_update (List.find?_some hd) _ _)]
      simp only [Option.getD_some]
      rw [find?_append_none h]
      simp

/-! ## C8: idempotent cohort registration -/

/-- C8.  Registering a login in the promotion cohort twice is the same as
registering it once; starting from a store holding at most one record for the
login, the double registration leaves exactly one record for it, and the
second call does not change the cohort's total count. -/
theorem addPromotionUser_idempotent (store : PromotionStore) (login : String)
    (h : countLogin store login ≤ 1) :
    addPromotionUser (addPromotionUser store login) login =
      addPromotionUser store login ∧
    countLogin (addPromotionUser (addPromotionUser store login) login) login = 1 ∧
    getPromotionCount (addPromotionUser (addPromotionUser store login) login) =
      getPromotionCount (addPromotionUser store login) := by
  have hidem : addPromotionUser (addPromotionUser store login) login =
      addPromotionUser store login := by
    unfold addPromotionUser
    cases hf : store.find? (fun u => u.ownerLogin == login) with
    | some u => simp [hf]
    | none =>
        simp only [hf]
        rw [find?_append_none hf]
        rw [List.find?_cons_of_pos _ (by simp)]
  refine ⟨hidem, ?_, by rw [hidem]⟩
  rw [hidem]
  unfold addPromotionUser countLogin
  cases hf : store.find? (fun u => u.ownerLogin == login) with
  | some u =>
      simp only [hf]
      have hmem : u ∈ store := List.mem_of_find?_eq_some hf
      have hu : (fun u => u.ownerLogin == login) u = true := by
        simpa using List.find?_some hf
      have hpos : 0 < (store.filter (fun u => u.ownerLogin == login)).length :=
        List.length_pos_of_mem (List.mem_filter.mpr ⟨hmem, hu⟩)
      unfold countLogin at h
      omega
  | none =>
      have hnil : store.filter (fun u => u.ownerLogin == login) = [] := by
        rw [List.filter_eq_nil_iff]
        intro a ha
        exact fun hpa => by
          have := List.find?_eq_none.mp hf a ha
          simp_all
      rw [List.filter_append, hnil]
      simp

/-- Witness for C8: registering a fresh login twice in an empty cohort. -/
theorem addPromotionUser_idempotent_witness :
    addPromotionUser (addPromotionUser [] "octocat") "octocat" =
      addPromotionUser [] "octocat" ∧
    countLogin (addPromotionUser (addPromotionUser [] "octocat") "octocat") "octocat" = 1 ∧
    getPromotionCount (addPromotionUser (addPromotionUser [] "octocat") "octocat") =
      getPromotionCount (addPromotionUser [] "octocat") :=
  addPromotionUser_idempotent [] "octocat" (by decide)

/-! ## C2: cost extraction takes the first marker match, not the last -/

/-- C2 counterexample/divergence.  On the spec's two-marker log the current
`extractSessionCost` revision returns the session cost of the FIRST marker
(`0.02`), not of the last (`0.07`): its comment and its fallback prompt both
say "last occurrence", but the single `exec` call on a fresh global regex
yields the first match. -/
theorem extractSessionCost_first_match_divergence :
    extractSessionCost dualMarkerLog (.ok none) = 2/100 ∧
    extractSessionCost dualMarkerLog (.ok none) ≠ 7/100 := by
  have h : extractSessionCost dualMarkerLog (.ok none) =
      decimalVal ['0'] ['0', '2'] := rfl
  have h0 : digitsVal ['0'] = 0 := rfl
  have h2 : digitsVal ['0', '2'] = 2 := rfl
  rw [h]
  unfold decimalVal
  rw [h0, h2]
  norm_num

/-! ## C9: cost extraction is total and defaults to zero -/

/-- C9.  `extractSessionCost` is a total function (the source wraps its whole
body in a `try/catch` returning `0`); whenever the marker regex finds no
match and the LLM fallback throws, returns no content, or returns a value
that does not parse as a float, the result is `0`. -/
theorem extractSessionCost_defaults_zero (log : String)
    (llm : Except Unit (Option String))
    (hno : firstMarkerCost log.data = none)
    (hfail : llm = .error () ∨ llm = .ok none ∨
      ∃ s, llm = .ok (some s) ∧
        ((trimChars s.data).isEmpty = true ∨ parseFloat (trimChars s.data) = none)) :
    extractSessionCost log llm = 0 := by
  unfold extractSessionCost
  rw [hno]
  rcases hfail with h | h | ⟨s, h, h2⟩
  · rw [h]
  · rw [h]
  · rw [h]
    rcases h2 with h2 | h2
    · simp [h2]
    · rcases he : (trimChars s.data).isEmpty with _ | _ <;> simp [he, h2]

/-- Witness for C9: a markerless log with a throwing LLM fallback. -/
theorem extractSessionCost_defaults_zero_witness :
    extractSessionCost "no cost marker in this log" (.error ()) = 0 :=
  extractSessionCost_defaults_zero "no cost marker in this log" (.error ())
    rfl (Or.inl rfl)

/-- Witness for C10: appending a session for PR `3` to an empty store. -/
theorem addSession_creates_missing_pr_witness :
    findPR (addSessionToPullRequest [] 7 "2025-06-01" 3 (1/2)) 7 "2025-06-01" 3 =
      some { number := 3, created_at := 0, cost := 1/2,
             sessions := [{ timestamp := 0, cost := 1/2 }] } :=
  addSession_creates_missing_pr [] 7 "2025-06-01" 3 (1/2) rfl

/-! ## C1: quota boundary -/

/-- `checkQuotaAndNotify` restated over the `pullRequests` array of the found
cycle document. -/
theorem checkQuotaAndNotify_prs {sub : Subscription} {store : Store}
    {id : Nat} {d : Installation} {prs : List PullRequest}
    (h : store.find? (matchesKey id sub.renewalDate) = some d)
    (hp : d.pullRequests = some prs) :
    checkQuotaAndNotify none (.ok (some sub)) store id =
      if prUnits prs ≥ (sub.monthlyPrLimit : ℤ) then (none, store)
      else (some d, store) := by
  rw [checkQuotaAndNotify_subscription h, hp, Option.getD_some]

/-- C1 counterexample.  After a sequential run of five `appendPullRequest`
calls (five PRs recorded in the cycle, each with extracted cost `0`), the
quota check against a monthly limit of `5` still allows processing: the check
compares cost units `ceil(cost / 0.25)`, not the number of recorded PRs, so
"denies when 5 have been recorded" is false. -/
theorem quota_allows_sixth_pr_with_five_recorded :
    (checkQuotaAndNotify none
        (.ok (some { monthlyPrLimit := 5, renewalDate := "2025-06-01" }))
        zeroCostStore5 7).1.isSome = true ∧
    (zeroCostStore5.find? (matchesKey 7 "2025-06-01")).map
        (fun d => (d.pullRequests.getD []).length) = some 5 := by
  have hfd : zeroCostStore5.find? (matchesKey 7 "2025-06-01") =
      some ⟨7, "2025-06-01",
        some [⟨1, 0, 0, [⟨0, 0⟩]⟩, ⟨2, 0, 0, [⟨0, 0⟩]⟩, ⟨3, 0, 0, [⟨0, 0⟩]⟩,
              ⟨4, 0, 0, [⟨0, 0⟩]⟩, ⟨5, 0, 0, [⟨0, 0⟩]⟩], 0⟩ := rfl
  refine ⟨?_, rfl⟩
  rw [checkQuotaAndNotify_prs hfd rfl]
  rw [if_neg]
  · rfl
  · show ¬ (prUnits [⟨1, 0, 0, [⟨0, 0⟩]⟩, ⟨2, 0, 0, [⟨0, 0⟩]⟩, ⟨3, 0, 0, [⟨0, 0⟩]⟩,
        ⟨4, 0, 0, [⟨0, 0⟩]⟩, ⟨5, 0, 0, [⟨0, 0⟩]⟩] ≥ ((5 : Nat) : ℤ))
    have hz : prUnits [⟨1, 0, 0, [⟨0, 0⟩]⟩, ⟨2, 0, 0, [⟨0, 0⟩]⟩, ⟨3, 0, 0, [⟨0, 0⟩]⟩,
        ⟨4, 0, 0, [⟨0, 0⟩]⟩, ⟨5, 0, 0, [⟨0, 0⟩]⟩] = 0 := by
      show 0 + ⌈(0 : ℚ) / (1/4 : ℚ)⌉ + ⌈(0 : ℚ) / (1/4 : ℚ)⌉ + ⌈(0 : ℚ) / (1/4 : ℚ)⌉ +
          ⌈(0 : ℚ) / (1/4 : ℚ)⌉ + ⌈(0 : ℚ) / (1/4 : ℚ)⌉ = 0
      norm_num
    rw [hz]
    norm_num

set_option maxHeartbeats 1000000 in
/-- C1 amended.  The quota check counts cost units `ceil(cost / 0.25)` per
recorded PR, not PRs.  When every recorded PR carries one unit (cost in
`(0, 0.25]`) the claim's boundary holds: with a limit of `5`, after four
appends the next check allows processing (the 5th PR is allowed), and after
five appends the check denies (the 6th is denied). -/
theorem quota_boundary_units (c₁ c₂ c₃ c₄ c₅ : ℚ)
    (h₁ : 0 < c₁ ∧ c₁ ≤ 1/4) (h₂ : 0 < c₂ ∧ c₂ ≤ 1/4) (h₃ : 0 < c₃ ∧ c₃ ≤ 1/4)
    (h₄ : 0 < c₄ ∧ c₄ ≤ 1/4) (h₅ : 0 < c₅ ∧ c₅ ≤ 1/4) :
    (checkQuotaAndNotify none
        (.ok (some { monthlyPrLimit := 5, renewalDate := "2025-06-01" }))
        (appendSeq [] 7 "2025-06-01" [(1, c₁), (2, c₂), (3, c₃), (4, c₄)]) 7).1.isSome =
      true ∧
    (checkQuotaAndNotify none
        (.ok (some { monthlyPrLimit := 5, renewalDate := "2025-06-01" }))
        (appendSeq [] 7 "2025-06-01" [(1, c₁), (2, c₂), (3, c₃), (4, c₄), (5, c₅)]) 7).1 =
      none := by
  have hfd4 : (appendSeq [] 7 "2025-06-01" [(1, c₁), (2, c₂), (3, c₃), (4, c₄)]).find?
      (matchesKey 7 "2025-06-01") =
      some ⟨7, "2025-06-01",
        some [⟨1, 0, c₁, [⟨0, c₁⟩]⟩, ⟨2, 0, c₂, [⟨0, c₂⟩]⟩, ⟨3, 0, c₃, [⟨0, c₃⟩]⟩,
              ⟨4, 0, c₄, [⟨0, c₄⟩]⟩], 0⟩ := rfl
  have hfd5 : (appendSeq [] 7 "2025-06-01"
        [(1, c₁), (2, c₂), (3, c₃), (4, c₄), (5, c₅)]).find?
      (matchesKey 7 "2025-06-01") =
      some ⟨7, "2025-06-01",
        some [⟨1, 0, c₁, [⟨0, c₁⟩]⟩, ⟨2, 0, c₂, [⟨0, c₂⟩]⟩, ⟨3, 0, c₃, [⟨0, c₃⟩]⟩,
              ⟨4, 0, c₄, [⟨0, c₄⟩]⟩, ⟨5, 0, c₅, [⟨0, c₅⟩]⟩], 0⟩ := rfl
  have hu4 : prUnits [⟨1, 0, c₁, [⟨0, c₁⟩]⟩, ⟨2, 0, c₂, [⟨0, c₂⟩]⟩,
      ⟨3, 0, c₃, [⟨0, c₃⟩]⟩, ⟨4, 0, c₄, [⟨0, c₄⟩]⟩] = 4 := by
    show 0 + ⌈c₁ / (1/4 : ℚ)⌉ + ⌈c₂ / (1/4 : ℚ)⌉ + ⌈c₃ / (1/4 : ℚ)⌉ +
        ⌈c₄ / (1/4 : ℚ)⌉ = 4
    rw [ceil_unit h₁.1 h₁.2, ceil_unit h₂.1 h₂.2, ceil_unit h₃.1 h₃.2,
      ceil_unit h₄.1 h₄.2]
    norm_num
  have hu5 : prUnits [⟨1, 0, c₁, [⟨0, c₁⟩]⟩, ⟨2, 0, c₂, [⟨0, c₂⟩]⟩,
      ⟨3, 0, c₃, [⟨0, c₃⟩]⟩, ⟨4, 0, c₄, [⟨0, c₄⟩]⟩, ⟨5, 0, c₅, [⟨0, c₅⟩]⟩] = 5 := by
    show 0 + ⌈c₁ / (1/4 : ℚ)⌉ + ⌈c₂ / (1/4 : ℚ)⌉ + ⌈c₃ / (1/4 : ℚ)⌉ +
        ⌈c₄ / (1/4 : ℚ)⌉ + ⌈c₅ / (1/4 : ℚ)⌉ = 5
    rw [ceil_unit h₁.1 h₁.2, ceil_unit h₂.1 h₂.2, ceil_unit h₃.1 h₃.2,
      ceil_unit h₄.1 h₄.2, ceil_unit h₅.1 h₅.2]
    norm_num
  constructor
  · rw [checkQuotaAndNotify_prs hfd4 rfl]
    rw [if_neg (by rw [hu4]; norm_num)]
    rfl
  · rw [checkQuotaAndNotify_prs hfd5 rfl]
    rw [if_pos (by rw [hu5]; norm_num)]

/-- Witness for the amended C1: four and five PRs of cost exactly `0.25`. -/
theorem quota_boundary_units_witness :
    (checkQuotaAndNotify none
        (.ok (some { monthlyPrLimit := 5, renewalDate := "2025-06-01" }))
        (appendSeq [] 7 "2025-06-01" [(1, 1/4), (2, 1/4), (3, 1/4), (4, 1/4)]) 7).1.isSome =
      true ∧
    (checkQuotaAndNotify none
        (.ok (some { monthlyPrLimit := 5, renewalDate := "2025-06-01" }))
        (appendSeq [] 7 "2025-06-01"
          [(1, 1/4), (2, 1/4), (3, 1/4), (4, 1/4), (5, 1/4)]) 7).1 =
      none :=
  quota_boundary_units (1/4) (1/4) (1/4) (1/4) (1/4)
    (by norm_num) (by norm_num) (by norm_num) (by norm_num) (by norm_num)

/-! ## C5: retry triggers exactly once -/

/-- C5.  In both workflows, when the first job completes but leaves the
branch SHA unchanged, the orchestrator invokes the Job Runner Adapter exactly
twice — never a third time — regardless of whether the second run throws or
whether it changes the branch. -/
theorem retry_exactly_once (envI : IssueEnv) (envR : ReviewEnv) (logI logR : String)
    (hIp : envI.payloadComplete = true) (hIl : envI.labelWatched = true)
    (hIq : (checkQuotaAndNotify envI.enterprise envI.provider envI.store
      envI.installationId).1.isSome = true)
    (hIj : envI.job1 = some logI) (hIs : envI.shaMid = envI.shaStart)
    (hRp : envR.payloadComplete = true) (hRo : envR.prIsOurs = true)
    (hRq : envR.prompt.isSome = true) (hRj : envR.job1 = some logR)
    (hRs : envR.shaMid = envR.shaStart) :
    (handleIssuesLabeled envI).jobCalls = 2 ∧
    (handlePullRequestReviewSubmitted envR).jobCalls = 2 := by
  constructor
  · unfold handleIssuesLabeled
    rw [hIp, hIl]
    rcases hq : checkQuotaAndNotify envI.enterprise envI.provider envI.store
        envI.installationId with ⟨q, st⟩
    rw [hq] at hIq
    cases q with
    | none => simp at hIq
    | some inst =>
        simp only [hq, hIj, hIs, beq_self_eq_true, if_true, Bool.and_self,
          Bool.not_true, Bool.false_eq_true, if_false]
        cases envI.job2 with
        | none => rfl
        | some log2 =>
            cases hE : envI.shaStart == envI.shaEnd <;> simp [hE]
  · unfold handlePullRequestReviewSubmitted
    rw [hRp, hRo]
    obtain ⟨p, hp⟩ := Option.isSome_iff_exists.mp hRq
    simp only [hp, hRj, hRs, beq_self_eq_true, if_true, Bool.not_true,
      Bool.false_eq_true, if_false]
    cases envR.job2 with
    | none => rfl
    | some log2 =>
        cases hE : envR.shaStart == envR.shaEnd <;> simp [hE]

/-- Witness for C5: concrete deliveries whose first job completes without
moving the branch. -/
theorem retry_exactly_once_witness :
    (handleIssuesLabeled issueRetryEnv).jobCalls = 2 ∧
    (handlePullRequestReviewSubmitted reviewRetryEnv).jobCalls = 2 :=
  retry_exactly_once issueRetryEnv reviewRetryEnv "first log" "first log"
    rfl rfl rfl rfl rfl rfl rfl rfl rfl rfl

/-! ## C6: no retry on infrastructure failure -/

/-- C6.  When the first Job Runner Adapter call throws, the issue workflow
invokes the adapter exactly once (no retry) and runs the centralized
`handleIssueError` handler. -/
theorem no_retry_on_infra_failure (env : IssueEnv)
    (hp : env.payloadComplete = true) (hl : env.labelWatched = true)
    (hq : (checkQuotaAndNotify env.enterprise env.provider env.store
      env.installationId).1.isSome = true)
    (hj : env.job1 = none) :
    (handleIssuesLabeled env).jobCalls = 1 ∧
    (handleIssuesLabeled env).errorHandled = true := by
  unfold handleIssuesLabeled
  rw [hp, hl]
  rcases hcq : checkQuotaAndNotify env.enterprise env.provider env.store
      env.installationId with ⟨q, st⟩
  rw [hcq] at hq
  cases q with
  | none => simp at hq
  | some inst =>
      simp [hcq, hj]

/-- Witness for C6: a delivery whose first job throws. -/
theorem no_retry_on_infra_failure_witness :
    (handleIssuesLabeled issueInfraFailEnv).jobCalls = 1 ∧
    (handleIssuesLabeled issueInfraFailEnv).errorHandled = true :=
  no_retry_on_infra_failure issueInfraFailEnv rfl rfl rfl rfl

/-! ## C7: subscription-provider failure -/

/-- C7 counterexample.  A provider outage (the subscription lookup throws)
with no enterprise record makes `checkQuotaAndNotify` return `null`, and the
issue workflow then stops without running any job: the outage by itself
terminates processing, and no promotion-cohort fallback is ever consulted
(none exists in the resolution path). -/
theorem provider_outage_blocks_processing :
    (checkQuotaAndNotify none (.error ()) [] 7).1 = none ∧
    handleIssuesLabeled providerOutageEnv =
      { jobCalls := 0, errorHandled := false, prCreated := false, store := [] } :=
  ⟨rfl, rfl⟩

/-- C7 amended.  A provider lookup error is treated as "no subscription":
`getSubscriptionDetails` returns `null` instead of throwing; but
`checkQuotaAndNotify` then posts the subscription-not-found notice and
returns `null`, halting processing — resolution never reaches any
promotion-cohort fallback. -/
theorem provider_error_treated_as_no_subscription (u : Unit) (store : Store) (id : Nat) :
    getSubscriptionDetails (.error u) = none ∧
    checkQuotaAndNotify none (.error u) store id = (none, store) :=
  ⟨rfl, rfl⟩

end AiJrDev
